import Mathlib

/-!
# Verification of the actor-mesh support pipeline

Shallow embedding of the routing, retry/escalation and correlation logic of
the actor-mesh demo (`src/models/message.py`, `src/actors/base.py`,
`src/actors/decision_router.py`, `src/actors/escalation_router.py`,
`src/api/websocket.py`), together with theorems settling the spec claims.

Python dictionaries that the code reads only at a fixed set of keys
(`sentiment`, `intent`, `context`, `guardrail_check`, `metadata`, the error
records) are embedded as structures holding exactly the projections the code
accesses; absent keys are `Option.none` and `dict.get(k, d)` becomes
`Option.getD`. Python numbers compared against literals like `0.8` are
embedded as rationals. Timestamps and freshly generated UUIDs are passed in
as explicit string parameters, so every function is pure and executable.
-/

set_option autoImplicit false

namespace ActorMesh

/-- Error record produced by `Message.add_error`: the dict
`{type, message, actor, timestamp}` in `src/models/message.py`. -/
structure ErrorInfo where
  type : String
  message : String
  actor : String
  timestamp : String
deriving DecidableEq

/-- Projections of the `sentiment` enrichment dict that the routers read:
`urgency`, `sentiment`, `intensity`. -/
structure SentimentData where
  urgency : Option String := none
  sentiment : Option String := none
  intensity : Option ℚ := none
deriving DecidableEq

/-- Projections of the `intent` enrichment dict that the routers read:
`intent` (the class label) and `confidence`. -/
structure IntentData where
  intent : Option String := none
  confidence : Option ℚ := none
deriving DecidableEq

/-- Projections of the `context` enrichment dict that the routers read:
`context["customer"]["tier"]` and `len(context["orders"])`. -/
structure ContextData where
  customer_tier : Option String := none
  orders_count : Nat := 0
deriving DecidableEq

/-- Projection of the `guardrail_check` enrichment dict: the `passed` flag. -/
structure GuardrailData where
  passed : Option Bool := none
deriving DecidableEq

/-- `Route` from `src/models/message.py`: ordered actor steps, a cursor, and
an optional error-handler stage. `current_step` is a Python `int` that is
never negative in the program (it starts at 0 and is only ever assigned 0, a
list index, or an increment), so it is embedded as `Nat`; comparisons that
Python performs on possibly-negative values (`len(steps) - 1`) are carried
out in `Int`. -/
structure Route where
  steps : List String
  current_step : Nat := 0
  error_handler : Option String := none
deriving DecidableEq

/-- `Route.get_current_actor`. -/
def Route.get_current_actor (r : Route) : Option String :=
  if r.current_step < r.steps.length then r.steps[r.current_step]? else none

/-- `Route.get_next_actor`. -/
def Route.get_next_actor (r : Route) : Option String :=
  if r.current_step + 1 < r.steps.length then r.steps[r.current_step + 1]? else none

/-- `Route.advance`: Python mutates in place and returns a `bool`; here the
returned pair carries the success flag and the updated route. -/
def Route.advance (r : Route) : Bool × Route :=
  if r.current_step + 1 < r.steps.length then
    (true, { r with current_step := r.current_step + 1 })
  else
    (false, r)

/-- `Route.is_complete`: `self.current_step >= len(self.steps) - 1`, with the
subtraction evaluated in `Int` exactly as Python evaluates it. -/
def Route.is_complete (r : Route) : Bool :=
  decide ((r.steps.length : Int) - 1 ≤ (r.current_step : Int))

/-- The `metadata` dict of a message, restricted to the keys the embedded
code reads or writes. `Message.__init__` guarantees `created_at` and
`retry_count` are always present, hence they are plain fields. -/
structure Metadata where
  created_at : String := ""
  retry_count : Nat := 0
  last_retry_at : Option String := none
  fallback_used : Bool := false
  fallback_reason : Option String := none
  emergency_fallback : Bool := false
deriving DecidableEq

/-- `MessagePayload` from `src/models/message.py`. The enrichment slots the
claims never inspect (`api_data`, `action_plan`, `execution_result`) are
opaque to every embedded function and are omitted. -/
structure MessagePayload where
  customer_message : String
  customer_email : String
  sentiment : Option SentimentData := none
  intent : Option IntentData := none
  context : Option ContextData := none
  response : Option String := none
  guardrail_check : Option GuardrailData := none
  error : Option ErrorInfo := none
  recovery_log : List ErrorInfo := []
deriving DecidableEq

/-- `Message` from `src/models/message.py`. -/
structure Message where
  message_id : String
  session_id : String
  route : Route
  payload : MessagePayload
  metadata : Metadata := {}
deriving DecidableEq

/-- `Message.add_error`: builds the error record (the wall-clock timestamp is
the explicit `now` parameter), stores it in `payload.error` and appends it to
`payload.recovery_log`. -/
def Message.add_error (m : Message) (error_type error_message actor now : String) : Message :=
  let info : ErrorInfo := ⟨error_type, error_message, actor, now⟩
  { m with payload := { m.payload with error := some info,
                                       recovery_log := m.payload.recovery_log ++ [info] } }

/-- `Message.increment_retry`: bumps `metadata["retry_count"]` and records
`last_retry_at` (the timestamp is the explicit `now` parameter). -/
def Message.increment_retry (m : Message) (now : String) : Message :=
  { m with metadata := { m.metadata with retry_count := m.metadata.retry_count + 1,
                                         last_retry_at := some now } }

/-- `create_error_message` from `src/models/message.py`. The fresh UUID that
`Message.__init__`'s `default_factory` draws is the explicit `freshId`
parameter; `now` is the timestamp used by `add_error`. -/
def create_error_message (freshId now : String) (original : Message)
    (error_type error_message actor : String) : Message :=
  let base : Message :=
    { message_id := freshId,
      session_id := original.session_id,
      route := { steps := match original.route.error_handler with
                          | some h => [h]
                          | none => ["escalation_router"],
                 current_step := 0 },
      payload := original.payload,
      metadata := original.metadata }
  base.add_error error_type error_message actor now

/-- Accessor for `payload.sentiment or {}` (absent slot behaves as the empty
dict, i.e. every projection defaults). -/
def sentimentOf (p : MessagePayload) : SentimentData := p.sentiment.getD {}

/-- Accessor for `payload.intent or {}`. -/
def intentOf (p : MessagePayload) : IntentData := p.intent.getD {}

/-- Accessor for `payload.context or {}`. -/
def contextOf (p : MessagePayload) : ContextData := p.context.getD {}

/-- Accessor for `payload.guardrail_check or {}`. -/
def guardrailOf (p : MessagePayload) : GuardrailData := p.guardrail_check.getD {}

/-!
## Actor runtime (`src/actors/base.py`)

The effects the runtime performs against the broker are reified as a list of
`BrokerAction`s in the order the code performs them, so the theorems can
speak about acknowledgements, redeliveries and publishes.
-/

/-- One broker-visible effect of handling a delivery. -/
inductive BrokerAction where
  | ack : BrokerAction
  | nak : BrokerAction
  | sleep (delay : ℚ) : BrokerAction
  | publish (subject : String) (msg : Message) : BrokerAction
deriving DecidableEq

/-- Whether a broker action is a publish. -/
def BrokerAction.isPublish : BrokerAction → Bool
  | .publish _ _ => true
  | _ => false

/-- `BaseActor._route_to_error_handler` (base.py:240-250): only when
`route.error_handler` is set does it add the error record and publish to the
handler's subject; otherwise it does nothing at all. Returns the (possibly
updated) message together with the publishes performed. -/
def routeToErrorHandler (self_name : String) (m : Message)
    (error_type error_message now : String) : Message × List BrokerAction :=
  match m.route.error_handler with
  | some handler =>
      let m' := m.add_error error_type error_message self_name now
      (m', [.publish ("ecommerce.support." ++ handler) m'])
  | none => (m, [])

/-- `BaseActor._handle_error` (base.py:192-222): with no message object the
delivery is nak'd; at or above `max_retries` the message goes through
`_route_to_error_handler` and is ack'd; below the limit the retry counter is
incremented, the error recorded, a backoff sleep of
`retry_delay * (retry_count + 1)` performed, and the delivery nak'd. -/
def handleError (self_name : String) (max_retries : Nat) (retry_delay : ℚ) (now : String)
    (message_obj : Option Message) (error_type error_message : String) :
    Option Message × List BrokerAction :=
  match message_obj with
  | none => (none, [.nak])
  | some m =>
      let retry_count := m.metadata.retry_count
      if max_retries ≤ retry_count then
        let (m', pubs) := routeToErrorHandler self_name m error_type error_message now
        (some m', pubs ++ [.ack])
      else
        let m' := (m.increment_retry now).add_error error_type error_message self_name now
        (some m', [.sleep (retry_delay * (retry_count + 1)), .nak])

/-- `BaseActor._route_to_next` (base.py:224-239), the default advance-and-
publish strategy: advance the cursor; on success publish to the new current
actor's subject; on failure (route complete) publish nothing. -/
def routeToNext (m : Message) : Message × List BrokerAction :=
  let (ok, r') := m.route.advance
  let m' := { m with route := r' }
  if ok then
    match r'.get_current_actor with
    | some next => (m', [.publish ("ecommerce.support." ++ next) m'])
    | none => (m', [])
  else (m', [])

/-- Outcome of the `await asyncio.wait_for(self.process(...), ...)` call:
either a successful result (`none` when `process` returned `None`) or a
timeout/exception carrying the error type and text used by the failure
path. -/
inductive ProcOutcome (α : Type) where
  | success (result : Option α) : ProcOutcome α
  | failure (error_type error_message : String) : ProcOutcome α

/-- `BaseActor._process_message` (base.py:149-190). Parameters:
`enrich` is the subclass's `_enrich_payload`, `routeNext` the subclass's
`_route_to_next` strategy, `deser` the result of deserialization (`none` for
a JSON decode failure, which the generic handler turns into a bare nak), and
`outcome` the behaviour of the subclass's `process` call. The returned
`Bool` records whether `process` was invoked; the `Option Message` is the
in-memory message object after handling. -/
def processMessage {α : Type} (self_name : String)
    (enrich : MessagePayload → α → MessagePayload)
    (routeNext : Message → Message × List BrokerAction)
    (max_retries : Nat) (retry_delay : ℚ) (now : String)
    (deser : Option Message) (outcome : ProcOutcome α) :
    Bool × Option Message × List BrokerAction :=
  match deser with
  | none => (false, (handleError self_name max_retries retry_delay now none "processing_error" "json decode failure"))
  | some m =>
      if m.route.get_current_actor ≠ some self_name then
        (false, some m, [.nak])
      else
        match outcome with
        | .success result =>
            let p' := match result with
                      | some r => enrich m.payload r
                      | none => m.payload
            let (m', acts) := routeNext { m with payload := p' }
            (true, some m', acts ++ [.ack])
        | .failure error_type error_message =>
            let (m', acts) :=
              handleError self_name max_retries retry_delay now (some m) error_type error_message
            (true, m', acts)

/-!
## Decision router (`src/actors/decision_router.py`)
-/

/-- Python's `list.insert(i, x)`: inserts before index `i`, clamping to an
append when `i` exceeds the length. -/
def pyInsert {α : Type} (xs : List α) (i : Nat) (x : α) : List α :=
  xs.take i ++ [x] ++ xs.drop i

/-- The `changes` dict returned by `DecisionRouter._make_routing_decisions`:
one flag per rule that fired. -/
structure RoutingChanges where
  immediate_escalation : Bool := false
  priority_processing : Bool := false
  action_execution : Bool := false
  low_confidence : Bool := false
  complex_processing : Bool := false
deriving DecidableEq

/-- `DecisionRouter._should_escalate_immediately` (decision_router.py:114-137). -/
def shouldEscalateImmediately (s : SentimentData) (i : IntentData) (c : ContextData) : Bool :=
  (s.urgency == some "critical") ||
  (s.sentiment == some "negative" && decide ((8 : ℚ)/10 < s.intensity.getD 0)) ||
  (["legal_threat", "formal_complaint", "regulatory_complaint"].contains (i.intent.getD "")) ||
  (c.customer_tier.getD "" == "VIP" && (s.urgency == some "high" || s.urgency == some "critical"))

/-- `DecisionRouter._needs_priority_processing` (decision_router.py:139-151). -/
def needsPriorityProcessing (s : SentimentData) (i : IntentData) : Bool :=
  (s.urgency == some "high") ||
  (["billing_inquiry", "refund_request", "payment_issue"].contains (i.intent.getD ""))

/-- `DecisionRouter._needs_action_execution` (decision_router.py:153-166). -/
def needsActionExecution (i : IntentData) (_c : ContextData) : Bool :=
  ["refund_request", "order_modification", "shipping_change",
   "billing_update", "account_update", "order_cancellation"].contains (i.intent.getD "")

/-- `DecisionRouter._has_low_confidence` (decision_router.py:168-170). -/
def hasLowConfidence (i : IntentData) : Bool :=
  decide (i.confidence.getD 1 < (6 : ℚ)/10)

/-- `DecisionRouter._is_complex_query` (decision_router.py:172-183). -/
def isComplexQuery (i : IntentData) (c : ContextData) : Bool :=
  if 5 < c.orders_count then true
  else ["technical_support", "product_compatibility", "bulk_order"].contains (i.intent.getD "")

/-- `DecisionRouter._insert_priority_steps` (decision_router.py:185-193). -/
def insertPrioritySteps (m : Message) : Message :=
  let current_pos := m.route.current_step
  let next_steps := m.route.steps.drop (current_pos + 1)
  if (next_steps.take 2).contains "response_generator" then m
  else { m with route := { m.route with
           steps := pyInsert m.route.steps (current_pos + 1) "response_generator" } }

/-- `DecisionRouter._ensure_execution_coordinator` (decision_router.py:195-203);
`_find_step_index` is Python's `list.index` returning `None` on absence,
i.e. `List.findIdx?`. -/
def ensureExecutionCoordinator (m : Message) : Message :=
  if m.route.steps.contains "execution_coordinator" then m
  else
    match m.route.steps.findIdx? (· == "response_generator") with
    | some idx =>
        { m with route := { m.route with steps := pyInsert m.route.steps idx "execution_coordinator" } }
    | none =>
        { m with route := { m.route with steps := m.route.steps ++ ["execution_coordinator"] } }

/-- `DecisionRouter._add_human_review` (decision_router.py:205-213). -/
def addHumanReview (m : Message) : Message :=
  if m.route.steps.contains "escalation_router" then m
  else
    match m.route.steps.findIdx? (· == "response_aggregator") with
    | some idx =>
        { m with route := { m.route with steps := pyInsert m.route.steps idx "escalation_router" } }
    | none =>
        { m with route := { m.route with steps := m.route.steps ++ ["escalation_router"] } }

/-- `DecisionRouter._add_enhanced_processing` (decision_router.py:215-221). -/
def addEnhancedProcessing (m : Message) : Message :=
  if m.route.current_step < m.route.steps.length then
    let remaining := m.route.steps.drop (m.route.current_step + 1)
    if remaining.contains "context_retriever" then m
    else { m with route := { m.route with
             steps := pyInsert m.route.steps (m.route.current_step + 1) "context_retriever" } }
  else m

/-- `DecisionRouter._make_routing_decisions` (decision_router.py:74-112):
the immediate-escalation rule replaces the route with
`["escalation_router", "response_aggregator"]`, resets the cursor and
returns without evaluating the remaining rules; otherwise rules 2-5 are
applied cumulatively. -/
def makeRoutingDecisions (m : Message) : Message × RoutingChanges :=
  let s := sentimentOf m.payload
  let i := intentOf m.payload
  let c := contextOf m.payload
  if shouldEscalateImmediately s i c then
    ({ m with route := { m.route with steps := ["escalation_router", "response_aggregator"],
                                      current_step := 0 } },
     { immediate_escalation := true })
  else
    let (m1, pp) := if needsPriorityProcessing s i then (insertPrioritySteps m, true) else (m, false)
    let (m2, ae) := if needsActionExecution i c then (ensureExecutionCoordinator m1, true) else (m1, false)
    let (m3, lc) := if hasLowConfidence i then (addHumanReview m2, true) else (m2, false)
    let (m4, cp) := if isComplexQuery i c then (addEnhancedProcessing m3, true) else (m3, false)
    (m4, { priority_processing := pp, action_execution := ae,
           low_confidence := lc, complex_processing := cp })

/-!
## Escalation router (`src/actors/escalation_router.py`)
-/

/-- `EscalationRouter.max_auto_retries` set in `__init__`. -/
def max_auto_retries : Nat := 3

/-- `EscalationRouter.confidence_threshold` set in `__init__`. -/
def confidence_threshold : ℚ := 1/2

/-- The keyword list of `EscalationRouter._is_escalation_request`. -/
def escalation_keywords : List String :=
  ["manager", "supervisor", "human", "person", "speak to someone",
   "escalate", "complaint", "unsatisfied", "not happy"]

/-- `EscalationRouter._is_escalation_request` (escalation_router.py:125-140):
any keyword occurring as a substring of the lower-cased customer message
(`customer_message.lower()`; lower-casing is embedded character-wise, which
agrees with Python on the ASCII texts involved). -/
def isEscalationRequest (m : Message) : Bool :=
  let customer_message := m.payload.customer_message.toList.map Char.toLower
  escalation_keywords.any (fun k => decide (k.toList <:+: customer_message))

/-- `EscalationRouter._needs_human_intervention` (escalation_router.py:142-161). -/
def needsHumanIntervention (m : Message) : Bool :=
  let s := sentimentOf m.payload
  let c := contextOf m.payload
  let i := intentOf m.payload
  (s.sentiment == some "negative" && decide ((7 : ℚ)/10 < s.intensity.getD 0)) ||
  (c.customer_tier.getD "" == "VIP") ||
  ((i.intent.map (["legal_threat", "formal_complaint"].contains ·)).getD false)

/-- `EscalationRouter._determine_escalation_type` (escalation_router.py:85-123):
the classification function of the escalation state machine. -/
def determineEscalationType (m : Message) : String :=
  if m.payload.error.isSome then
    if m.metadata.retry_count < max_auto_retries then "retry" else "error_recovery"
  else if (intentOf m.payload).confidence.getD 1 < confidence_threshold then "human_handoff"
  else if isEscalationRequest m then "human_handoff"
  else if needsHumanIntervention m then "human_handoff"
  else if !((guardrailOf m.payload).passed.getD true) then "fallback_response"
  else "no_escalation"

/-!
## WebSocket manager (`src/api/websocket.py`)

The manager state is the triple of its three dictionaries; the `WebSocket`
objects themselves carry no information the claims need, so
`active_connections` is embedded as the list of its keys. Dictionaries are
association lists with (in reachable states) unique keys; `dict.pop(k)`
removes every binding of `k`.
-/

/-- The mutable state of `WebSocketManager`. -/
structure WSState where
  active_connections : List String
  session_connections : List (String × String)
  pending_requests : List (String × String)
deriving DecidableEq

/-- `WebSocketManager._disconnect` (websocket.py:190-218): pop the
connection, pop the first session bound to it, and pop every pending
`message_id` whose value is the connection. -/
def wsDisconnectInternal (c : String) (st : WSState) : WSState :=
  let active := st.active_connections.filter (· != c)
  let session :=
    match st.session_connections.find? (fun q => q.2 == c) with
    | some q => st.session_connections.filter (fun q' => q'.1 != q.1)
    | none => st.session_connections
  let messages_to_remove := (st.pending_requests.filter (fun p => p.2 == c)).map Prod.fst
  let pending := st.pending_requests.filter (fun p => !(messages_to_remove.contains p.1))
  { active_connections := active, session_connections := session, pending_requests := pending }

/-- `WebSocketManager.disconnect` (websocket.py:179-188): only runs the
internal disconnect when the connection is active. -/
def wsDisconnect (c : String) (st : WSState) : WSState :=
  if st.active_connections.contains c then wsDisconnectInternal c st else st

/-!
## Helper lemmas
-/

/-- Iterated `Route.advance`: the route after `n` advance calls. -/
def advanceN (r : Route) : Nat → Route
  | 0 => r
  | n + 1 => ((advanceN r n).advance).2

theorem advanceN_eq_of_le (steps : List String) (eh : Option String) :
    ∀ i, i ≤ steps.length - 1 →
      advanceN { steps := steps, current_step := 0, error_handler := eh } i =
        { steps := steps, current_step := i, error_handler := eh } := by
  intro i
  induction i with
  | zero => intro _; rfl
  | succ n ih =>
      intro h
      have hn : n ≤ steps.length - 1 := by omega
      have hlt : n + 1 < steps.length := by omega
      show ((advanceN { steps := steps, current_step := 0, error_handler := eh } n).advance).2 = _
      rw [ih hn]
      simp [Route.advance, hlt]

theorem add_error_route (m : Message) (a b c d : String) :
    (m.add_error a b c d).route = m.route := rfl

theorem increment_retry_route (m : Message) (now : String) :
    (m.increment_retry now).route = m.route := rfl

theorem handleError_preserves_route (self et em now : String) (maxR : Nat) (delay : ℚ)
    (m m' : Message) (acts : List BrokerAction)
    (h : handleError self maxR delay now (some m) et em = (some m', acts)) :
    m'.route = m.route := by
  by_cases hc : maxR ≤ m.metadata.retry_count
  · cases heh : m.route.error_handler with
    | none =>
        have hE : handleError self maxR delay now (some m) et em = (some m, [.ack]) := by
          simp [handleError, routeToErrorHandler, hc, heh]
        rw [hE] at h
        simp only [Prod.mk.injEq, Option.some.injEq] at h
        rw [← h.1]
    | some handler =>
        have hE : handleError self maxR delay now (some m) et em =
            (some (m.add_error et em self now),
             [.publish ("ecommerce.support." ++ handler) (m.add_error et em self now), .ack]) := by
          simp [handleError, routeToErrorHandler, hc, heh]
        rw [hE] at h
        simp only [Prod.mk.injEq, Option.some.injEq] at h
        rw [← h.1, add_error_route]
  · have hE : handleError self maxR delay now (some m) et em =
        (some ((m.increment_retry now).add_error et em self now),
         [.sleep (delay * (m.metadata.retry_count + 1)), .nak]) := by
      simp [handleError, hc]
    rw [hE] at h
    simp only [Prod.mk.injEq, Option.some.injEq] at h
    rw [← h.1, add_error_route, increment_retry_route]

theorem routeToNext_fst (m : Message) :
    (routeToNext m).1 = { m with route := (m.route.advance).2 } := by
  unfold routeToNext
  rcases hA : m.route.advance with ⟨ok, r'⟩
  cases ok
  · simp
  · simp only
    cases r'.get_current_actor <;> simp

theorem advance_cursor_le (r : Route) : r.current_step ≤ ((r.advance).2).current_step := by
  unfold Route.advance
  split <;> simp

/-!
## Concrete fixtures for witnesses and counterexamples
-/

/-- A plain request payload with no enrichments. -/
def basePayload : MessagePayload :=
  { customer_message := "hello", customer_email := "cust@example.com" }

/-- A message sitting at the Decision Router (cursor 3 of the full pipeline)
whose sentiment enrichment reports critical urgency. -/
def criticalMsg : Message :=
  { message_id := "m-001"
    session_id := "s-001"
    route := { steps := ["sentiment_analyzer", "intent_analyzer", "context_retriever",
                         "decision_router", "response_generator", "guardrail_validator",
                         "response_aggregator"]
               current_step := 3
               error_handler := some "escalation_router" }
    payload := { basePayload with sentiment := some { urgency := some "critical" } } }

/-- A message that has exhausted its retries and carries no error handler. -/
def exhaustedNoHandlerMsg : Message :=
  { message_id := "m-002"
    session_id := "s-002"
    route := { steps := ["sentiment_analyzer", "response_aggregator"], current_step := 0 }
    payload := basePayload
    metadata := { retry_count := 3 } }

/-- A message that has exhausted its retries and names an error handler. -/
def exhaustedWithHandlerMsg : Message :=
  { message_id := "m-003"
    session_id := "s-003"
    route := { steps := ["response_generator", "response_aggregator"]
               current_step := 0
               error_handler := some "escalation_router" }
    payload := basePayload
    metadata := { retry_count := 3 } }

/-!
## Claims
-/

/-- C1: whenever the sentiment enrichment carries `urgency = critical`, the
Decision Router's routing evaluation replaces the route steps with exactly
`["escalation_router", "response_aggregator"]`, resets `current_step` to 0,
keeps the error handler, records only the `immediate_escalation` change
(so no further routing rule is evaluated), and leaves the payload untouched
— regardless of any other enrichment present on the message. -/
theorem decisionRouter_critical_escalation (m : Message)
    (h : (sentimentOf m.payload).urgency = some "critical") :
    (makeRoutingDecisions m).1.route.steps = ["escalation_router", "response_aggregator"] ∧
    (makeRoutingDecisions m).1.route.current_step = 0 ∧
    (makeRoutingDecisions m).1.route.error_handler = m.route.error_handler ∧
    (makeRoutingDecisions m).2 = { immediate_escalation := true } ∧
    (makeRoutingDecisions m).1.payload = m.payload := by
  simp [makeRoutingDecisions, shouldEscalateImmediately, h]

/-- C1 witness: the rewrite on a concrete critical-urgency message. -/
theorem decisionRouter_critical_escalation_check :
    (sentimentOf criticalMsg.payload).urgency = some "critical" ∧
    (makeRoutingDecisions criticalMsg).1.route.steps = ["escalation_router", "response_aggregator"] :=
  ⟨rfl, (decisionRouter_critical_escalation criticalMsg rfl).1⟩

/-- C2 counterexample: at `retry_count = max_retries = 3` with
`route.error_handler` unset, `_handle_error` performs no publish at all —
the action trace is exactly one acknowledgement, refuting the claimed
fallback publish to a default escalation stage. -/
theorem exhausted_unset_handler_no_publish :
    handleError "sentiment_analyzer" 3 1 "t0" (some exhaustedNoHandlerMsg)
        "timeout" "Processing timeout" = (some exhaustedNoHandlerMsg, [.ack]) ∧
    ((handleError "sentiment_analyzer" 3 1 "t0" (some exhaustedNoHandlerMsg)
        "timeout" "Processing timeout").2.countP BrokerAction.isPublish) = 0 :=
  ⟨rfl, rfl⟩

/-- C2 amended: for a processing failure with `retry_count >= max_retries`,
when `route.error_handler` is set the handler appends the error record,
publishes the message to that stage's subject, and acknowledges — the action
trace is exactly one publish followed by one ack; when `error_handler` is
unset, nothing is appended and nothing is published — the message is still
acknowledged exactly once (dropped rather than handed off to a fallback
escalation stage). -/
theorem handleError_exhausted_behaviour (m : Message) (self et em now : String)
    (maxR : Nat) (delay : ℚ) (h : maxR ≤ m.metadata.retry_count) :
    (∀ handler, m.route.error_handler = some handler →
        handleError self maxR delay now (some m) et em =
          (some (m.add_error et em self now),
           [.publish ("ecommerce.support." ++ handler) (m.add_error et em self now), .ack])) ∧
    (m.route.error_handler = none →
        handleError self maxR delay now (some m) et em = (some m, [.ack])) := by
  constructor
  · intro handler heh
    simp [handleError, routeToErrorHandler, h, heh]
  · intro heh
    simp [handleError, routeToErrorHandler, h, heh]

/-- C2 amended witness: a concrete exhausted message with a handler set is
published once to the handler's subject and acknowledged. -/
theorem handleError_exhausted_behaviour_check :
    (3 : Nat) ≤ exhaustedWithHandlerMsg.metadata.retry_count ∧
    handleError "response_generator" 3 1 "t0" (some exhaustedWithHandlerMsg)
        "timeout" "Processing timeout" =
      (some (exhaustedWithHandlerMsg.add_error "timeout" "Processing timeout"
               "response_generator" "t0"),
       [.publish ("ecommerce.support." ++ "escalation_router")
          (exhaustedWithHandlerMsg.add_error "timeout" "Processing timeout"
             "response_generator" "t0"),
        .ack]) :=
  ⟨by decide,
   (handleError_exhausted_behaviour exhaustedWithHandlerMsg "response_generator"
      "timeout" "Processing timeout" "t0" 3 1 (by decide)).1 "escalation_router" rfl⟩

/-- C3 counterexample: the Decision Router's immediate-escalation rewrite
assigns `current_step := 0` to a message whose cursor is 3, so a stage-
processing step does decrease `current_step`. -/
theorem escalation_rewrite_decreases_cursor :
    (makeRoutingDecisions criticalMsg).1.route.current_step < criticalMsg.route.current_step := by
  decide

/-- C3 amended: along the runtime's default advance-and-publish path
(`BaseActor._process_message` with the default `_route_to_next`, including
its retry and error-handler branches) the route cursor never decreases;
router route rewrites — the Decision Router's immediate-escalation reset and
the Escalation Router's retry rewind — are the only operations that may
assign it a smaller value. -/
theorem default_path_cursor_monotone {α : Type} (self : String)
    (enrich : MessagePayload → α → MessagePayload) (maxR : Nat) (delay : ℚ) (now : String)
    (m m' : Message) (outcome : ProcOutcome α)
    (h : (processMessage self enrich routeToNext maxR delay now (some m) outcome).2.1 = some m') :
    m.route.current_step ≤ m'.route.current_step := by
  by_cases hr : m.route.get_current_actor = some self
  · cases outcome with
    | success result =>
        simp only [processMessage, hr, ne_eq, not_true_eq_false, if_false] at h
        rw [routeToNext_fst] at h
        injection h with h
        subst h
        simpa using advance_cursor_le m.route
    | failure et em =>
        simp only [processMessage, hr, ne_eq, not_true_eq_false, if_false] at h
        rcases hE : handleError self maxR delay now (some m) et em with ⟨mo, acts⟩
        rw [hE] at h
        have hfull : handleError self maxR delay now (some m) et em = (some m', acts) := by
          rw [hE]; exact congrArg (fun x => (x, acts)) h
        rw [handleError_preserves_route self et em now maxR delay m m' acts hfull]
  · rw [← ne_eq] at hr
    simp only [processMessage, if_pos hr] at h
    obtain rfl : m = m' := by injection h
    exact le_refl _

/-- A correctly routed message at the head of the full pipeline. -/
def basePipelineMsg : Message :=
  { message_id := "m-004"
    session_id := "s-004"
    route := { steps := ["sentiment_analyzer", "intent_analyzer", "context_retriever",
                         "decision_router", "response_generator", "guardrail_validator",
                         "response_aggregator"]
               current_step := 0
               error_handler := some "escalation_router" }
    payload := basePayload }

/-- `basePipelineMsg` after one successful default advance. -/
def advancedPipelineMsg : Message :=
  { basePipelineMsg with route := { basePipelineMsg.route with current_step := 1 } }

/-- C3 amended witness: one concrete successful default processing step moves
the cursor from 0 to 1, not backwards. -/
theorem default_path_cursor_monotone_check :
    basePipelineMsg.route.current_step ≤ advancedPipelineMsg.route.current_step :=
  default_path_cursor_monotone "sentiment_analyzer" (fun p (_ : Unit) => p) 3 1 "t0"
    basePipelineMsg advancedPipelineMsg (.success none) (by decide)

/-- A message with no enrichments and a neutral customer text. -/
def plainMsg : Message :=
  { message_id := "m-005"
    session_id := "s-005"
    route := { steps := ["escalation_router"], current_step := 0 }
    payload := basePayload }

/-- Identical to `plainMsg` on error presence, retry count, intent
confidence, sentiment, tier and guardrail result, but whose customer text
contains the keyword `manager`. -/
def managerMsg : Message :=
  { message_id := "m-006"
    session_id := "s-006"
    route := { steps := ["escalation_router"], current_step := 0 }
    payload := { basePayload with customer_message := "manager please" } }

/-- C4 counterexample: two messages agreeing on all six claimed classifier
inputs (error presence, retry_count, intent confidence, sentiment, customer
tier, guardrail result) but differing in the raw customer-message text are
classified differently, so the classification is not a function of exactly
those six inputs. -/
theorem classifier_not_function_of_six_inputs :
    plainMsg.payload.error.isSome = managerMsg.payload.error.isSome ∧
    plainMsg.metadata.retry_count = managerMsg.metadata.retry_count ∧
    (intentOf plainMsg.payload).confidence = (intentOf managerMsg.payload).confidence ∧
    sentimentOf plainMsg.payload = sentimentOf managerMsg.payload ∧
    (contextOf plainMsg.payload).customer_tier = (contextOf managerMsg.payload).customer_tier ∧
    guardrailOf plainMsg.payload = guardrailOf managerMsg.payload ∧
    determineEscalationType plainMsg = "no_escalation" ∧
    determineEscalationType managerMsg = "human_handoff" := by
  refine ⟨rfl, rfl, rfl, rfl, rfl, rfl, ?_, ?_⟩
  · norm_num [determineEscalationType, isEscalationRequest, needsHumanIntervention,
      plainMsg, basePayload, intentOf, sentimentOf, contextOf, guardrailOf,
      confidence_threshold, escalation_keywords, max_auto_retries]
    decide
  · norm_num [determineEscalationType, isEscalationRequest, needsHumanIntervention,
      managerMsg, basePayload, intentOf, sentimentOf, contextOf, guardrailOf,
      confidence_threshold, escalation_keywords, max_auto_retries]
    decide

/-- C4 amended: `_determine_escalation_type` is a deterministic pure function
of (error presence, retry_count, the intent enrichment — its confidence and
its intent label, the raw customer-message text, sentiment, customer tier,
guardrail result): any two messages agreeing on those inputs receive the
same single classification, which always lies in
{retry, human_handoff, error_recovery, fallback_response, no_escalation}. -/
theorem classifier_pure_function (m1 m2 : Message)
    (h1 : m1.payload.error.isSome = m2.payload.error.isSome)
    (h2 : m1.metadata.retry_count = m2.metadata.retry_count)
    (h3 : intentOf m1.payload = intentOf m2.payload)
    (h4 : m1.payload.customer_message = m2.payload.customer_message)
    (h5 : sentimentOf m1.payload = sentimentOf m2.payload)
    (h6 : (contextOf m1.payload).customer_tier = (contextOf m2.payload).customer_tier)
    (h7 : guardrailOf m1.payload = guardrailOf m2.payload) :
    determineEscalationType m1 = determineEscalationType m2 ∧
    determineEscalationType m1 ∈
      ["retry", "human_handoff", "error_recovery", "fallback_response", "no_escalation"] := by
  constructor
  · simp only [determineEscalationType, isEscalationRequest, needsHumanIntervention,
      h1, h2, h3, h4, h5, h6, h7]
  · unfold determineEscalationType
    repeat' split
    all_goals simp

/-- Two messages identical on every classifier input, differing only in the
customer email. -/
def emailAMsg : Message :=
  { message_id := "m-007"
    session_id := "s-007"
    route := { steps := ["escalation_router"], current_step := 0 }
    payload := basePayload }

/-- See `emailAMsg`. -/
def emailBMsg : Message :=
  { message_id := "m-008"
    session_id := "s-008"
    route := { steps := ["escalation_router"], current_step := 0 }
    payload := { basePayload with customer_email := "other@example.com" } }

/-- C4 amended witness: two concrete messages agreeing on the classifier
inputs receive the same in-range classification. -/
theorem classifier_pure_function_check :
    determineEscalationType emailAMsg = determineEscalationType emailBMsg ∧
    determineEscalationType emailAMsg ∈
      ["retry", "human_handoff", "error_recovery", "fallback_response", "no_escalation"] :=
  classifier_pure_function emailAMsg emailBMsg rfl rfl rfl rfl rfl rfl rfl

/-- C5: for a route of `N ≥ 1` steps starting at cursor 0, each of the first
`N−1` advance calls returns true with the route not yet complete beforehand,
after exactly `N−1` calls the route is complete, and the `N`-th call returns
false and leaves the route unchanged. -/
theorem advance_exactly_n_minus_one (steps : List String) (eh : Option String)
    (h : 1 ≤ steps.length) :
    (∀ i, i < steps.length - 1 →
        ((advanceN { steps := steps, current_step := 0, error_handler := eh } i).advance).1 = true ∧
        (advanceN { steps := steps, current_step := 0, error_handler := eh } i).is_complete = false) ∧
    (advanceN { steps := steps, current_step := 0, error_handler := eh }
        (steps.length - 1)).is_complete = true ∧
    ((advanceN { steps := steps, current_step := 0, error_handler := eh }
        (steps.length - 1)).advance) =
      (false, advanceN { steps := steps, current_step := 0, error_handler := eh }
        (steps.length - 1)) := by
  refine ⟨?_, ?_, ?_⟩
  · intro i hi
    rw [advanceN_eq_of_le steps eh i (by omega)]
    constructor
    · have hlt : i + 1 < steps.length := by omega
      simp [Route.advance, hlt]
    · simp only [Route.is_complete, decide_eq_false_iff_not, not_le]
      omega
  · rw [advanceN_eq_of_le steps eh _ (le_refl _)]
    simp only [Route.is_complete, decide_eq_true_eq]
    omega
  · rw [advanceN_eq_of_le steps eh _ (le_refl _)]
    have hge : ¬ ((steps.length - 1) + 1 < steps.length) := by omega
    simp [Route.advance, hge]

/-- C5 witness: the three-step route needs exactly two successful advances
and the third call fails without moving the cursor. -/
theorem advance_exactly_n_minus_one_check :
    (1 : Nat) ≤ (["a", "b", "c"] : List String).length ∧
    (advanceN { steps := ["a", "b", "c"], current_step := 0, error_handler := none }
        ((["a", "b", "c"] : List String).length - 1)).is_complete = true :=
  ⟨by decide, (advance_exactly_n_minus_one ["a", "b", "c"] none (by decide)).2.1⟩

/-- C6 counterexample: the empty route is complete (`is_complete` is true)
yet its `current_step` (0) differs from `len(steps) - 1` (−1), so
`is_complete` is not equivalent to equality with `len(steps) - 1`. -/
theorem isComplete_not_iff_eq :
    Route.is_complete { steps := [] } = true ∧
    ¬ ((({ steps := [] } : Route).current_step : Int) =
        ((({ steps := [] } : Route).steps.length : Int) - 1)) := by
  decide

/-- C6 amended: `is_complete()` returns true iff
`current_step >= len(steps) - 1` (evaluated over the integers); in
particular the empty route is complete, and whenever the route is complete,
`advance()` returns false and leaves the route unchanged. -/
theorem isComplete_iff_ge (r : Route) :
    (r.is_complete = true ↔ (r.steps.length : Int) - 1 ≤ (r.current_step : Int)) ∧
    (r.is_complete = true → r.advance = (false, r)) := by
  constructor
  · simp [Route.is_complete]
  · intro h
    simp only [Route.is_complete, decide_eq_true_eq] at h
    have hlt : ¬ (r.current_step + 1 < r.steps.length) := by omega
    simp [Route.advance, hlt]

/-- C6 amended witness: the empty route is complete and advancing it is a
failing no-op. -/
theorem isComplete_iff_ge_check :
    Route.advance { steps := [] } = (false, { steps := [] }) :=
  (isComplete_iff_ge { steps := [] }).2 (by decide)

/-- C7: for a processing failure with `retry_count = k < max_retries`, the
failure handler produces exactly the message with `retry_count = k + 1` and
one error record appended to `recovery_log`, then sleeps the backoff
`retry_delay * (k + 1)` and negatively-acknowledges; no publish and no ack
occur, so the broker redelivers the message instead of escalating it. -/
theorem handleError_retry_path (m : Message) (self et em now : String)
    (maxR : Nat) (delay : ℚ) (h : m.metadata.retry_count < maxR) :
    handleError self maxR delay now (some m) et em =
      (some ((m.increment_retry now).add_error et em self now),
       [.sleep (delay * (m.metadata.retry_count + 1)), .nak]) ∧
    ((m.increment_retry now).add_error et em self now).metadata.retry_count =
      m.metadata.retry_count + 1 ∧
    ((m.increment_retry now).add_error et em self now).payload.recovery_log =
      m.payload.recovery_log ++ [⟨et, em, self, now⟩] := by
  have hn : ¬ (maxR ≤ m.metadata.retry_count) := Nat.not_le.mpr h
  exact ⟨by simp [handleError, hn], rfl, rfl⟩

/-- A message that still has retries left. -/
def retryableMsg : Message :=
  { message_id := "m-009"
    session_id := "s-009"
    route := { steps := ["intent_analyzer", "response_aggregator"]
               current_step := 0
               error_handler := some "escalation_router" }
    payload := basePayload
    metadata := { retry_count := 1 } }

/-- C7 witness: a concrete failure at `retry_count = 1 < 3` increments the
counter, appends the error record, sleeps and naks. -/
theorem handleError_retry_path_check :
    retryableMsg.metadata.retry_count < 3 ∧
    handleError "intent_analyzer" 3 1 "t0" (some retryableMsg) "timeout" "Processing timeout" =
      (some ((retryableMsg.increment_retry "t0").add_error "timeout" "Processing timeout"
               "intent_analyzer" "t0"),
       [.sleep (1 * (retryableMsg.metadata.retry_count + 1)), .nak]) :=
  ⟨by decide,
   (handleError_retry_path retryableMsg "intent_analyzer" "timeout" "Processing timeout"
      "t0" 3 1 (by decide)).1⟩

/-- C8: a deserialized message whose route's current stage differs from the
receiving runtime's own name is never handed to `process` (the invocation
flag stays false), is returned with no state mutated, and the delivery is
negatively-acknowledged — for every enrichment function, route strategy,
retry configuration and process outcome. -/
theorem misroute_is_rejected {α : Type} (self : String)
    (enrich : MessagePayload → α → MessagePayload)
    (routeNext : Message → Message × List BrokerAction)
    (maxR : Nat) (delay : ℚ) (now : String) (m : Message) (outcome : ProcOutcome α)
    (h : m.route.get_current_actor ≠ some self) :
    processMessage self enrich routeNext maxR delay now (some m) outcome =
      (false, some m, [.nak]) := by
  simp [processMessage, h]

/-- A message currently addressed to the sentiment analyzer. -/
def misroutedMsg : Message :=
  { message_id := "m-010"
    session_id := "s-010"
    route := { steps := ["sentiment_analyzer", "response_aggregator"], current_step := 0 }
    payload := basePayload }

/-- C8 witness: the intent-analyzer runtime rejects a message addressed to
the sentiment analyzer with a bare nak and no processing. -/
theorem misroute_is_rejected_check :
    processMessage "intent_analyzer" (fun (p : MessagePayload) (_ : Unit) => p) routeToNext
        3 1 "t0" (some misroutedMsg) (.success none) = (false, some misroutedMsg, [.nak]) :=
  misroute_is_rejected "intent_analyzer" (fun p _ => p) routeToNext 3 1 "t0"
    misroutedMsg (.success none) (by decide)

/-- C9: for an active WebSocket connection `c` — with the session map binding
at most one session to each connection, as `connect`'s fresh UUIDs guarantee
— `disconnect c` leaves no pending-request entry referencing `c` (for every
starting state of the pending map), removes `c` from the active connections,
and removes its session binding. -/
theorem ws_disconnect_purges (st : WSState) (c : String)
    (hc : st.active_connections.contains c = true)
    (hsess : ∀ q ∈ st.session_connections, ∀ q' ∈ st.session_connections,
        q.2 = c → q'.2 = c → q.1 = q'.1) :
    (∀ p ∈ (wsDisconnect c st).pending_requests, p.2 ≠ c) ∧
    (¬ (c ∈ (wsDisconnect c st).active_connections)) ∧
    (∀ q ∈ (wsDisconnect c st).session_connections, q.2 ≠ c) := by
  unfold wsDisconnect
  rw [if_pos hc]
  unfold wsDisconnectInternal
  refine ⟨?_, ?_, ?_⟩
  · intro p hp hpc
    simp only [List.mem_filter] at hp
    obtain ⟨hpm, hpf⟩ := hp
    have hmem : p.1 ∈ (st.pending_requests.filter (fun q => q.2 == c)).map Prod.fst := by
      refine List.mem_map.mpr ⟨p, ?_, rfl⟩
      exact List.mem_filter.mpr ⟨hpm, by simp [hpc]⟩
    simp [List.contains, List.elem_iff, hmem] at hpf
  · intro hmem
    simp only [List.mem_filter] at hmem
    simp at hmem
  · cases hfind : st.session_connections.find? (fun q => q.2 == c) with
    | none =>
        simp only [hfind]
        intro q hq hqc
        have := List.find?_eq_none.mp hfind q hq
        simp [hqc] at this
    | some q0 =>
        simp only [hfind]
        intro q hq hqc
        simp only [List.mem_filter] at hq
        obtain ⟨hqm, hqf⟩ := hq
        have hq0c : q0.2 = c := by
          have := List.find?_some hfind
          simpa using this
        have hq0m : q0 ∈ st.session_connections := List.mem_of_find?_eq_some hfind
        have : q.1 = q0.1 := hsess q hqm q0 hq0m hqc hq0c
        simp [this] at hqf

/-- A manager state with two active connections, one session and three
pending requests, two of which reference connection `c1`. -/
def wsStateFixture : WSState :=
  { active_connections := ["c1", "c2"]
    session_connections := [("s1", "c1")]
    pending_requests := [("m1", "c1"), ("m2", "c2"), ("m3", "c1")] }

/-- C9 witness: disconnecting `c1` from the concrete state purges both
pending entries referencing it and removes it from the active set. -/
theorem ws_disconnect_purges_check :
    (∀ p ∈ (wsDisconnect "c1" wsStateFixture).pending_requests, p.2 ≠ "c1") ∧
    ¬ ("c1" ∈ (wsDisconnect "c1" wsStateFixture).active_connections) :=
  ⟨(ws_disconnect_purges wsStateFixture "c1" (by decide) (by decide)).1,
   (ws_disconnect_purges wsStateFixture "c1" (by decide) (by decide)).2.1⟩

/-- C10: `create_error_message` yields a message whose route steps are
exactly `[error_handler]` when the original's handler is set and
`["escalation_router"]` otherwise, with cursor 0; its payload is the
original payload with the error slot set and exactly one record appended to
`recovery_log`; its metadata is carried over; and its `message_id` is the
freshly generated id — in particular it differs from the original's id
whenever the fresh id does. -/
theorem create_error_message_spec (freshId now : String) (original : Message)
    (et em actor : String) :
    (create_error_message freshId now original et em actor).message_id = freshId ∧
    (create_error_message freshId now original et em actor).route.steps =
      (match original.route.error_handler with
       | some h => [h]
       | none => ["escalation_router"]) ∧
    (create_error_message freshId now original et em actor).route.current_step = 0 ∧
    (create_error_message freshId now original et em actor).payload =
      { original.payload with
          error := some ⟨et, em, actor, now⟩,
          recovery_log := original.payload.recovery_log ++ [⟨et, em, actor, now⟩] } ∧
    (create_error_message freshId now original et em actor).metadata = original.metadata ∧
    (freshId ≠ original.message_id →
      (create_error_message freshId now original et em actor).message_id ≠
        original.message_id) :=
  ⟨rfl, rfl, rfl, rfl, rfl, fun h => h⟩

/-- An original message with no error handler configured. -/
def origFailedMsg : Message :=
  { message_id := "m-011"
    session_id := "s-011"
    route := { steps := ["response_generator", "response_aggregator"], current_step := 1 }
    payload := basePayload
    metadata := { retry_count := 3 } }

/-- C10 witness: the error message built from a concrete original takes the
default `escalation_router` route and a fresh id distinct from the
original's. -/
theorem create_error_message_spec_check :
    (create_error_message "fresh-42" "t1" origFailedMsg "timeout" "boom"
        "response_generator").route.steps = ["escalation_router"] ∧
    (create_error_message "fresh-42" "t1" origFailedMsg "timeout" "boom"
        "response_generator").message_id ≠ origFailedMsg.message_id :=
  ⟨(create_error_message_spec "fresh-42" "t1" origFailedMsg "timeout" "boom"
      "response_generator").2.1,
   (create_error_message_spec "fresh-42" "t1" origFailedMsg "timeout" "boom"
      "response_generator").2.2.2.2.2 (by decide)⟩

end ActorMesh
